import Mathlib

/-!
Shallow embedding of `src/abastecimentos_app.py` (fleet fuel-requisition
tracker) and proofs about its specified behaviour.

Python strings are modelled as lists of codepoints (`List Nat`); Python
values that can be `None`, strings or numbers are modelled by `PyVal`.
Each definition carries a comment naming the source function or lines it
embeds.
-/

namespace Abastecimentos

/-- Codepoints of a Lean string literal, used to write concrete Python
string constants from the source. -/
def strCodes (s : String) : List Nat := s.data.map Char.toNat

/-- Whitespace recognised by Python `str.split()` / `str.strip()`
(space, tab, linefeed, vertical tab, formfeed, carriage return). -/
def isSpaceN (c : Nat) : Bool :=
  decide (c = 32 ∨ c = 9 ∨ c = 10 ∨ c = 11 ∨ c = 12 ∨ c = 13)

/-- ASCII letter uppercasing, as Python applies to the first character in
`str.capitalize` (the source only handles ASCII fuel names). -/
def toUpperN (c : Nat) : Nat := if 97 ≤ c ∧ c ≤ 122 then c - 32 else c

/-- ASCII letter lowercasing, as Python applies to the non-first characters
in `str.capitalize` and in `str.lower`. -/
def toLowerN (c : Nat) : Nat := if 65 ≤ c ∧ c ≤ 90 then c + 32 else c

/-- Python `str.strip()`: drop leading and trailing whitespace. -/
def pyStrip (l : List Nat) : List Nat :=
  ((l.dropWhile isSpaceN).reverse.dropWhile isSpaceN).reverse

/-- Python `str.split()` with no argument: maximal runs of non-whitespace
characters, leading/trailing/repeated whitespace discarded.  Structural
formulation with one character of lookahead: a non-space character is
prepended to the following word exactly when the next character is also
non-space.  (The `| [] => [[c]]` arm is unreachable: when `d` is non-space
`pyWords (d :: cs)` is never empty.) -/
def pyWords : List Nat → List (List Nat)
  | [] => []
  | [c] => if isSpaceN c then [] else [[c]]
  | c :: d :: cs =>
    if isSpaceN c then pyWords (d :: cs)
    else if isSpaceN d then [c] :: pyWords cs
    else
      match pyWords (d :: cs) with
      | [] => [[c]]
      | w :: ws => (c :: w) :: ws

/-- Python `str.capitalize()`: first character uppercased, the rest
lowercased. -/
def pyCapitalize (w : List Nat) : List Nat :=
  match w with
  | [] => []
  | c :: cs => toUpperN c :: cs.map toLowerN

/-- Python `' '.join(words)`: words joined by single spaces. -/
def joinSpace (ws : List (List Nat)) : List Nat :=
  (List.intersperse [32] ws).flatten

/-- Smallest number of decimal digits rendering a rational exactly, when
one of 0..17 works (every float literal in the app is an exact short
decimal). -/
def decExponent (q : ℚ) : Option Nat :=
  (List.range 18).find? (fun k => (q * (10 : ℚ) ^ k).den == 1)

/-- Decimal digits of `n`, zero-padded on the left to `k` digits. -/
def padZeros (k : Nat) (n : Nat) : List Nat :=
  let s := strCodes (toString n)
  List.replicate (k - s.length) 48 ++ s

/-- Python `str` of a float whose value is an exact short decimal, the only
floats the app prints: at least one fractional digit, e.g. `12.5 ↦ "12.5"`,
`50 ↦ "50.0"`. -/
def pyFloatRepr (q : ℚ) : List Nat :=
  match decExponent q with
  | Option.none => strCodes (toString q)
  | Option.some k0 =>
    let k := max k0 1
    let m : Int := (q * (10 : ℚ) ^ k).num
    (if m < 0 then strCodes "-" else []) ++
      strCodes (toString (m.natAbs / 10 ^ k)) ++ strCodes "." ++
      padZeros k (m.natAbs % 10 ^ k)

/-- A Python value as passed around by the app: `None`, a string, an int,
or a float (modelled as a rational; the app never computes with floats in
the embedded fragments). -/
inductive PyVal where
  | none : PyVal
  | str : List Nat → PyVal
  | int : Int → PyVal
  | float : ℚ → PyVal
deriving DecidableEq, Repr

/-- Python `str(v)` for the values the app converts: strings pass through,
`None` prints as `"None"`, ints in decimal, floats via their rational
literal (exact for the decimal constants appearing in the app). -/
def pyStrOf : PyVal → List Nat
  | PyVal.none => strCodes "None"
  | PyVal.str s => s
  | PyVal.int n => strCodes (toString n)
  | PyVal.float q => pyFloatRepr q

/-- `normalize_combustivel` (src lines 111-121): returns `None` unchanged;
otherwise converts to string, strips, splits into words, capitalizes each
word and rejoins with single spaces.  The `try/except` never fires in this
model because every step is total. -/
def normalize_combustivel (val : PyVal) : PyVal :=
  match val with
  | PyVal.none => PyVal.none
  | v => PyVal.str (joinSpace (((pyWords (pyStrip (pyStrOf v)))).map pyCapitalize))

/-- Python `str.endswith pat`. -/
def pyEndsWith (s pat : List Nat) : Bool :=
  pat.length ≤ s.length && s.drop (s.length - pat.length) == pat

/-- `pat` occurs as a contiguous substring of `s`. -/
def containsSeq (pat s : List Nat) : Bool :=
  (List.range (s.length + 1)).any (fun i => (s.drop i).take pat.length == pat)

/-- Python truthiness of an optional string: `None` and `""` are falsy. -/
def truthy (v : Option (List Nat)) : Bool :=
  match v with
  | Option.none => false
  | Option.some s => !s.isEmpty

/-- The `smtp_config` dict passed to `send_email_smtp`; every key may be
absent, mirroring `dict.get` in the source. -/
structure SmtpConfig where
  server : Option (List Nat)
  port : Option Nat
  user : Option (List Nat)
  password : Option (List Nat)
  use_tls : Option Bool
deriving DecidableEq, Repr

/-- Attachment MIME maintype/subtype inference (src lines 235-241): the
default `application/octet-stream` is overridden to the spreadsheet type
when the lowercased file name ends in `.xlsx`; the source has no `.pdf`
branch. -/
def inferMime (attachment_name : List Nat) : List Nat × List Nat :=
  if pyEndsWith (attachment_name.map toLowerN) (strCodes ".xlsx") then
    (strCodes "application",
     strCodes "vnd.openxmlformats-officedocument.spreadsheetml.sheet")
  else (strCodes "application", strCodes "octet-stream")

/-- The `EmailMessage` composed by `send_email_smtp` (src lines 223-241):
headers, plain content, optional HTML alternative, optional attachment as
(bytes, maintype, subtype, filename). -/
structure EmailMsg where
  fromAddr : List Nat
  toAddr : List Nat
  subject : List Nat
  content : List Nat
  htmlAlt : Option (List Nat)
  attachment : Option (List Nat × List Nat × List Nat × List Nat)
deriving DecidableEq, Repr

/-- Message composition in `send_email_smtp` (src lines 223-241): when an
HTML body is truthy the plain content falls back to a fixed sentence, and
the attachment is added exactly when `attachment_bytes is not None`. -/
def buildEmailMsg (to_address subject : List Nat) (body html_body : Option (List Nat))
    (attachment_bytes : Option (List Nat)) (attachment_name : List Nat)
    (smtp_config : Option SmtpConfig) : EmailMsg :=
  let fromAddr :=
    match smtp_config with
    | Option.some cfg => cfg.user.getD []
    | Option.none => []
  let content :=
    if truthy html_body then
      (if truthy body then body.getD [] else strCodes "Este e-mail contém conteúdo em HTML.")
    else (if truthy body then body.getD [] else [])
  let htmlAlt := if truthy html_body then html_body else Option.none
  let attachment :=
    match attachment_bytes with
    | Option.none => Option.none
    | Option.some bs => Option.some (bs, (inferMime attachment_name).1,
        (inferMime attachment_name).2, attachment_name)
  ⟨fromAddr, to_address, subject, content, htmlAlt, attachment⟩

/-- The transport request `send_email_smtp` makes: relay parameters
resolved with their defaults (src lines 243-247) plus the composed
message. -/
structure SmtpSession where
  server : List Nat
  port : Nat
  user : Option (List Nat)
  password : Option (List Nat)
  use_tls : Bool
  msg : EmailMsg
deriving DecidableEq, Repr

/-- Relay-parameter resolution of `send_email_smtp` (src lines 243-247). -/
def mkSession (to_address subject : List Nat) (body html_body : Option (List Nat))
    (attachment_bytes : Option (List Nat)) (attachment_name : List Nat)
    (smtp_config : Option SmtpConfig) : SmtpSession :=
  let server :=
    match smtp_config with
    | Option.some cfg => cfg.server.getD (strCodes "smtp.gmail.com")
    | Option.none => strCodes "smtp.gmail.com"
  let port :=
    match smtp_config with
    | Option.some cfg => cfg.port.getD 587
    | Option.none => 587
  let user :=
    match smtp_config with
    | Option.some cfg => cfg.user
    | Option.none => Option.none
  let password :=
    match smtp_config with
    | Option.some cfg => cfg.password
    | Option.none => Option.none
  let use_tls :=
    match smtp_config with
    | Option.some cfg => cfg.use_tls.getD true
    | Option.none => true
  ⟨server, port, user, password, use_tls,
   buildEmailMsg to_address subject body html_body attachment_bytes attachment_name smtp_config⟩

/-- `send_email_smtp` (src lines 213-258): composes the message, performs
exactly one synchronous transport attempt — modelled as a caller-supplied
function that either succeeds or raises an error string — and converts the
outcome into a `(success flag, error text)` pair; the surrounding
`try/except` turns every raise into `(False, str(e))`. -/
def send_email_smtp (to_address subject : List Nat) (body html_body : Option (List Nat))
    (attachment_bytes : Option (List Nat)) (attachment_name : List Nat)
    (smtp_config : Option SmtpConfig)
    (transport : SmtpSession → Except (List Nat) Unit) : Bool × List Nat :=
  match transport (mkSession to_address subject body html_body attachment_bytes
      attachment_name smtp_config) with
  | Except.ok _ => (true, [])
  | Except.error e => (false, e)

/-- A Python dict with string keys, as passed to `generate_request_pdf`. -/
abbrev PyDict := List (List Nat × PyVal)

/-- Python `dict.get(k, dflt)` over a key/value list. -/
def pyGet (d : PyDict) (k : List Nat) (dflt : PyVal) : PyVal :=
  match d.find? (fun kv => kv.1 == k) with
  | Option.some kv => kv.2
  | Option.none => dflt

/-- Values the PDF generator passes straight into a table cell or an
f-string; the app only supplies strings in those positions. -/
def asStr : PyVal → List Nat
  | PyVal.str s => s
  | v => pyStrOf v

/-- Python `.replace("\n", "<br/>")` over codepoints. -/
def replaceNewlines (l : List Nat) : List Nat :=
  (l.map (fun c => if c = 10 then strCodes "<br/>" else [c])).flatten

/-- The `meta` table of `generate_request_pdf` (src lines 755-765): a
fixed, unconditional nine-row list; `km_atual` and `litros` are passed
through `str(...)`, every other value is used as fetched with default
`""`. -/
def metaRows (payload : PyDict) : List (List Nat × PyVal) :=
  [(strCodes "Data:", pyGet payload (strCodes "data") (PyVal.str [])),
   (strCodes "Posto destino:", pyGet payload (strCodes "posto") (PyVal.str [])),
   (strCodes "Placa:", pyGet payload (strCodes "placa") (PyVal.str [])),
   (strCodes "Motorista:", pyGet payload (strCodes "motorista") (PyVal.str [])),
   (strCodes "Supervisor:", pyGet payload (strCodes "supervisor") (PyVal.str [])),
   (strCodes "Setor:", pyGet payload (strCodes "setor") (PyVal.str [])),
   (strCodes "Quilometragem atual:",
    PyVal.str (pyStrOf (pyGet payload (strCodes "km_atual") (PyVal.str [])))),
   (strCodes "Quantidade (L):",
    PyVal.str (pyStrOf (pyGet payload (strCodes "litros") (PyVal.str [])))),
   (strCodes "Combustível:", pyGet payload (strCodes "combustivel") (PyVal.str []))]

/-- The document content assembled by `generate_request_pdf`
(src lines 746-788); the actual byte rendering is the external library. -/
structure RequestPdf where
  title : List Nat
  meta : List (List Nat × PyVal)
  justificativa : List Nat
  solicitanteLine : List Nat
  assinaturaLine : List Nat
deriving DecidableEq, Repr

/-- The `RuntimeError` message raised when `reportlab` cannot be imported
(src line 744). -/
def reportlabMissingMsg : List Nat :=
  strCodes "reportlab não disponível: instale com `pip install reportlab`"

/-- `generate_request_pdf` (src lines 733-788): a failed `reportlab` import
raises the labelled `RuntimeError`; otherwise the fixed story (title, the
nine-row meta table, justification with newlines turned into `<br/>`,
requester line, blank signature line) is built and rendered. -/
def generate_request_pdf (reportlab_available : Bool) (payload : PyDict) :
    Except (List Nat) RequestPdf :=
  if reportlab_available then
    Except.ok ⟨strCodes "Requisição de Abastecimento", metaRows payload,
      replaceNewlines (asStr (pyGet payload (strCodes "justificativa") (PyVal.str []))),
      strCodes "Solicitado por: " ++ pyStrOf (pyGet payload (strCodes "solicitante") (PyVal.str [])),
      strCodes "Assinatura: ____________________________"⟩
  else Except.error reportlabMissingMsg

/-- A row of the `cadastros` table, fields in `CREATE TABLE` order
(src lines 55-66). -/
structure CadRow where
  id : Nat
  placa : PyVal
  condutor : PyVal
  unidade : PyVal
  setor : PyVal
  categoria : PyVal
  marca : PyVal
  modelo : PyVal
deriving DecidableEq, Repr

/-- The `cadastros` table with its AUTOINCREMENT counter. -/
structure CadTable where
  rows : List CadRow
  nextId : Nat
deriving DecidableEq, Repr

/-- `INSERT OR REPLACE INTO cadastros (Placa, Categoria, Marca, Modelo,
Condutor, Unidade, Setor) VALUES (...)` with `Placa UNIQUE` (src lines
278-283 and 361-365): SQLite deletes any row with the same plate and
inserts the new row under a fresh autoincrement id. -/
def upsertCadastro (t : CadTable) (placa categoria marca modelo condutor unidade setor : PyVal) :
    CadTable :=
  ⟨t.rows.filter (fun r => !(r.placa == placa)) ++
     [⟨t.nextId, placa, condutor, unidade, setor, categoria, marca, modelo⟩],
   t.nextId + 1⟩

/-- The "Apagar último cadastro" button (src lines 371-382): fetch the
highest id and delete that row; no-op on an empty table. -/
def deleteLastCadastro (t : CadTable) : CadTable :=
  match (t.rows.map CadRow.id).max? with
  | Option.none => t
  | Option.some i => ⟨t.rows.filter (fun r => !(r.id == i)), t.nextId⟩

/-- Manual registration save in `pagina_cadastros` (src lines 355-368):
an all-whitespace plate is rejected with no write; otherwise every field
is stripped and upserted by plate. -/
def salvarCadastroManual (t : CadTable)
    (placa categoria marca modelo condutor unidade setor : List Nat) : Bool × CadTable :=
  if (pyStrip placa).isEmpty then (false, t)
  else (true, upsertCadastro t (PyVal.str (pyStrip placa)) (PyVal.str (pyStrip categoria))
    (PyVal.str (pyStrip marca)) (PyVal.str (pyStrip modelo)) (PyVal.str (pyStrip condutor))
    (PyVal.str (pyStrip unidade)) (PyVal.str (pyStrip setor)))

/-- A parsed spreadsheet: column names plus rows of cells, each row aligned
with the column list; a missing value (pandas `NaN`) is `PyVal.none`. -/
structure DataFrame where
  cols : List (List Nat)
  rows : List (List PyVal)
deriving DecidableEq, Repr

/-- `row[c]`: the cell of `row` under column `c`. -/
def dfCell (df : DataFrame) (row : List PyVal) (c : List Nat) : PyVal :=
  match df.cols.findIdx? (fun c' => c' == c) with
  | Option.some i => (row.get? i).getD PyVal.none
  | Option.none => PyVal.none

/-- Column headers required by `upload_cadastros` (src line 266). -/
def expectedCadCols : List (List Nat) :=
  [strCodes "Placa", strCodes "Categoria", strCodes "Marca", strCodes "Modelo",
   strCodes "Condutor", strCodes "Unidade", strCodes "Setor"]

/-- Column headers required by `upload_abastecimentos` (src lines 295-296). -/
def expectedAbCols : List (List Nat) :=
  [strCodes "Placa", strCodes "Valor Total", strCodes "Total de litros",
   strCodes "Data", strCodes "Referente", strCodes "Odometro", strCodes "Posto",
   strCodes "Combustivel", strCodes "Condutor", strCodes "Unidade", strCodes "Setor"]

/-- Outcome reported by the two bulk-import operations. -/
inductive UploadResult where
  | errorInvalidCols : UploadResult
  | errorMissingPlaca : UploadResult
  | ok : UploadResult
deriving DecidableEq, Repr

/-- `upload_cadastros` (src lines 263-290), store effect: reject unless all
expected headers are present, reject if any row's plate is `NaN`, else
`INSERT OR REPLACE` every row.  (Connection behaviour on failures is
modelled separately by `upload_cadastros_conn`.) -/
def upload_cadastros (df : DataFrame) (t : CadTable) : UploadResult × CadTable :=
  if !(expectedCadCols.all (fun c => df.cols.contains c)) then
    (UploadResult.errorInvalidCols, t)
  else if !(df.rows.all (fun r => !(dfCell df r (strCodes "Placa") == PyVal.none))) then
    (UploadResult.errorMissingPlaca, t)
  else
    (UploadResult.ok,
     df.rows.foldl (fun acc r =>
       upsertCadastro acc (dfCell df r (strCodes "Placa"))
         (dfCell df r (strCodes "Categoria")) (dfCell df r (strCodes "Marca"))
         (dfCell df r (strCodes "Modelo")) (dfCell df r (strCodes "Condutor"))
         (dfCell df r (strCodes "Unidade")) (dfCell df r (strCodes "Setor"))) t)

/-- A row of the `abastecimentos` table, fields in `CREATE TABLE` order
(src lines 69-84). -/
structure AbRow where
  id : Nat
  placa : PyVal
  valor_total : PyVal
  total_litros : PyVal
  data : PyVal
  referente : PyVal
  odometro : PyVal
  posto : PyVal
  combustivel : PyVal
  condutor : PyVal
  unidade : PyVal
  setor : PyVal
deriving DecidableEq, Repr

/-- The `abastecimentos` table with its AUTOINCREMENT counter. -/
structure AbTable where
  rows : List AbRow
  nextId : Nat
deriving DecidableEq, Repr

/-- `upload_abastecimentos` (src lines 292-319), store effect: header
check, whole-file plate check, rename of the three headers, normalization
of the `Combustivel` column, then `to_sql(..., if_exists="append")`. -/
def upload_abastecimentos (df : DataFrame) (t : AbTable) : UploadResult × AbTable :=
  if !(expectedAbCols.all (fun c => df.cols.contains c)) then
    (UploadResult.errorInvalidCols, t)
  else if !(df.rows.all (fun r => !(dfCell df r (strCodes "Placa") == PyVal.none))) then
    (UploadResult.errorMissingPlaca, t)
  else
    (UploadResult.ok,
     df.rows.foldl (fun acc r =>
       ⟨acc.rows ++
          [⟨acc.nextId, dfCell df r (strCodes "Placa"),
            dfCell df r (strCodes "Valor Total"), dfCell df r (strCodes "Total de litros"),
            dfCell df r (strCodes "Data"), dfCell df r (strCodes "Referente"),
            dfCell df r (strCodes "Odometro"), dfCell df r (strCodes "Posto"),
            normalize_combustivel (dfCell df r (strCodes "Combustivel")),
            dfCell df r (strCodes "Condutor"), dfCell df r (strCodes "Unidade"),
            dfCell df r (strCodes "Setor")⟩],
        acc.nextId + 1⟩) t)

/-- A database schema: the ordered list of tables, each a name paired with
its column names. -/
structure Schema where
  tables : List (List Nat × List (List Nat))
deriving DecidableEq, Repr

/-- `CREATE TABLE IF NOT EXISTS name (cols)`. -/
def createTableIfNotExists (s : Schema) (name : List Nat) (cols : List (List Nat)) : Schema :=
  if s.tables.any (fun t => t.1 == name) then s else ⟨s.tables ++ [(name, cols)]⟩

/-- Columns of `cadastros` (src lines 55-66). -/
def cadastrosCols : List (List Nat) :=
  [strCodes "id", strCodes "Placa", strCodes "Condutor", strCodes "Unidade",
   strCodes "Setor", strCodes "Categoria", strCodes "Marca", strCodes "Modelo"]

/-- Columns of `abastecimentos` (src lines 69-84). -/
def abastecimentosCols : List (List Nat) :=
  [strCodes "id", strCodes "Placa", strCodes "valor_total", strCodes "total_litros",
   strCodes "data", strCodes "Referente", strCodes "Odometro", strCodes "Posto",
   strCodes "Combustivel", strCodes "Condutor", strCodes "Unidade", strCodes "Setor"]

/-- Columns of `postos_emails` (src lines 95-101). -/
def postosEmailsCols : List (List Nat) :=
  [strCodes "id", strCodes "posto", strCodes "email"]

/-- `init_db` (src lines 50-87): create both tables if absent. -/
def init_db (s : Schema) : Schema :=
  createTableIfNotExists
    (createTableIfNotExists s (strCodes "cadastros") cadastrosCols)
    (strCodes "abastecimentos") abastecimentosCols

/-- `init_postos_emails` (src lines 92-103). -/
def init_postos_emails (s : Schema) : Schema :=
  createTableIfNotExists s (strCodes "postos_emails") postosEmailsCols

/-- Module start-up (src lines 89 and 105): both initialisers run once. -/
def initAll (s : Schema) : Schema := init_postos_emails (init_db s)

/-- The named table exists in the schema. -/
def hasTable (s : Schema) (name : List Nat) : Bool :=
  s.tables.any (fun t => t.1 == name)

/-- Schema has no two tables with the same name. -/
def tableNamesNodup (s : Schema) : Prop :=
  (s.tables.map Prod.fst).Nodup

/-- At most one `cadastros` row per plate. -/
def uniquePlates (t : CadTable) : Prop :=
  ∀ r1 ∈ t.rows, ∀ r2 ∈ t.rows, r1.placa = r2.placa → r1 = r2

/-- Where an operation leaves its SQLite connection. -/
inductive ConnOutcome where
  | neverOpened : ConnOutcome
  | closed : ConnOutcome
  | leftOpen : ConnOutcome
deriving DecidableEq, Repr

/-- Connection lifecycle of `upload_cadastros` (src lines 263-290) as a
function of which step fails: `read_excel` failure and the two validation
rejections return before `get_connection()`; a per-row insert failure is
caught by the inner `except` (loop continues, `close` still runs); a
`commit` failure propagates to the outer `except`, which skips
`conn.close()`. -/
def upload_cadastros_conn (readFails invalidCols missingPlaca commitFails : Bool) :
    ConnOutcome :=
  if readFails then ConnOutcome.neverOpened
  else if invalidCols then ConnOutcome.neverOpened
  else if missingPlaca then ConnOutcome.neverOpened
  else if commitFails then ConnOutcome.leftOpen
  else ConnOutcome.closed

/-- Connection lifecycle of `upload_abastecimentos` (src lines 292-319):
a `to_sql` failure propagates to the outer `except`, which skips
`conn.close()`. -/
def upload_abastecimentos_conn (readFails invalidCols missingPlaca toSqlFails : Bool) :
    ConnOutcome :=
  if readFails then ConnOutcome.neverOpened
  else if invalidCols then ConnOutcome.neverOpened
  else if missingPlaca then ConnOutcome.neverOpened
  else if toSqlFails then ConnOutcome.leftOpen
  else ConnOutcome.closed

/-- Connection lifecycle of the manual requisition save in
`pagina_abastecimentos` (src lines 452-464): there is no `try` at all, so
a failing `execute`/`commit` propagates and `conn.close()` is skipped. -/
def pagina_abastecimentos_save_conn (execFails : Bool) : ConnOutcome :=
  if execFails then ConnOutcome.leftOpen else ConnOutcome.closed

end Abastecimentos

namespace Abastecimentos

theorem isSpaceN_toUpperN (c : Nat) : isSpaceN (toUpperN c) = isSpaceN c := by
  unfold toUpperN
  split
  · simp only [isSpaceN, decide_eq_decide]
    omega
  · rfl

theorem isSpaceN_toLowerN (c : Nat) : isSpaceN (toLowerN c) = isSpaceN c := by
  unfold toLowerN
  split
  · simp only [isSpaceN, decide_eq_decide]
    omega
  · rfl

theorem toUpperN_idem (c : Nat) : toUpperN (toUpperN c) = toUpperN c := by
  unfold toUpperN
  split
  · split
    · omega
    · rfl
  · rfl

theorem toLowerN_idem (c : Nat) : toLowerN (toLowerN c) = toLowerN c := by
  unfold toLowerN
  split
  · split
    · omega
    · rfl
  · rfl

theorem joinSpace_single (w : List Nat) : joinSpace [w] = w := by
  simp [joinSpace]

theorem joinSpace_cons_cons (w v : List Nat) (ws : List (List Nat)) :
    joinSpace (w :: v :: ws) = w ++ 32 :: joinSpace (v :: ws) := by
  simp [joinSpace, List.intersperse_cons_cons]

theorem pyWords_wordOk (l : List Nat) :
    ∀ w ∈ pyWords l, w ≠ [] ∧ ∀ c ∈ w, isSpaceN c = false := by
  induction l using pyWords.induct with
  | case1 => simp [pyWords]
  | case2 c hc => simp [pyWords, hc]
  | case3 c hc =>
    intro w hw
    simp only [pyWords, if_neg hc, List.mem_singleton] at hw
    subst hw
    refine ⟨by simp, ?_⟩
    intro x hx
    simp only [List.mem_singleton] at hx
    subst hx
    simpa using hc
  | case4 c d cs hc ih =>
    intro w hw
    simp only [pyWords, if_pos hc] at hw
    exact ih w hw
  | case5 c d cs hc hd ih =>
    intro w hw
    simp only [pyWords, if_neg hc, if_pos hd, List.mem_cons] at hw
    rcases hw with h | h
    · subst h
      refine ⟨by simp, ?_⟩
      intro x hx
      simp only [List.mem_singleton] at hx
      subst hx
      simpa using hc
    · exact ih w h
  | case6 c d cs hc hd hnil ih =>
    intro w hw
    simp only [pyWords, if_neg hc, if_neg hd, hnil, List.mem_singleton] at hw
    subst hw
    refine ⟨by simp, ?_⟩
    intro x hx
    simp only [List.mem_singleton] at hx
    subst hx
    simpa using hc
  | case7 c d cs hc hd w' ws' heq ih =>
    intro w hw
    simp only [pyWords, if_neg hc, if_neg hd, heq, List.mem_cons] at hw
    rcases hw with h | h
    · subst h
      have hw' := ih w' (by simp [heq])
      refine ⟨by simp, ?_⟩
      intro x hx
      simp only [List.mem_cons] at hx
      rcases hx with rfl | hx
      · simpa using hc
      · exact hw'.2 x hx
    · exact ih w (by simp [heq, h])

theorem pyWords_single_word (w : List Nat) (hne : w ≠ [])
    (hns : ∀ c ∈ w, isSpaceN c = false) : pyWords w = [w] := by
  induction w with
  | nil => cases hne rfl
  | cons c w' ih =>
    have hc : isSpaceN c = false := hns c (by simp)
    cases w' with
    | nil => simp [pyWords, hc]
    | cons c' w'' =>
      have hc' : isSpaceN c' = false := hns c' (by simp)
      have ih' := ih (by simp) (fun x hx => hns x (List.mem_cons_of_mem _ hx))
      simp [pyWords, hc, hc', ih']

theorem pyWords_word_append (w : List Nat) (hne : w ≠ [])
    (hns : ∀ c ∈ w, isSpaceN c = false) (t : List Nat) :
    pyWords (w ++ 32 :: t) = w :: pyWords t := by
  induction w with
  | nil => cases hne rfl
  | cons c w' ih =>
    have hc : isSpaceN c = false := hns c (by simp)
    have h32 : isSpaceN 32 = true := by decide
    cases w' with
    | nil =>
      simp [pyWords, hc, h32]
    | cons c' w'' =>
      have hc' : isSpaceN c' = false := hns c' (by simp)
      have ih' := ih (by simp) (fun x hx => hns x (List.mem_cons_of_mem _ hx))
      simp only [List.cons_append] at ih' ⊢
      simp [pyWords, hc, hc', ih']

theorem pyWords_joinSpace (ws : List (List Nat))
    (h : ∀ w ∈ ws, w ≠ [] ∧ ∀ c ∈ w, isSpaceN c = false) :
    pyWords (joinSpace ws) = ws := by
  induction ws with
  | nil => rfl
  | cons w ws' ih =>
    cases ws' with
    | nil =>
      rw [joinSpace_single]
      exact pyWords_single_word w (h w (by simp)).1 (h w (by simp)).2
    | cons v ws'' =>
      rw [joinSpace_cons_cons]
      rw [pyWords_word_append w (h w (by simp)).1 (h w (by simp)).2]
      rw [ih (fun x hx => h x (List.mem_cons_of_mem _ hx))]

theorem reverse_head_nonspace (w : List Nat) (hne : w ≠ [])
    (hns : ∀ c ∈ w, isSpaceN c = false) :
    ∃ c t, w.reverse = c :: t ∧ isSpaceN c = false := by
  cases hrev : w.reverse with
  | nil => exact absurd (by simpa using hrev) hne
  | cons c t =>
    refine ⟨c, t, rfl, ?_⟩
    have hc : c ∈ w.reverse := by simp [hrev]
    exact hns c (by simpa using hc)

theorem joinSpace_reverse_head (ws : List (List Nat)) (hne : ws ≠ [])
    (h : ∀ w ∈ ws, w ≠ [] ∧ ∀ c ∈ w, isSpaceN c = false) :
    ∃ c t, (joinSpace ws).reverse = c :: t ∧ isSpaceN c = false := by
  induction ws with
  | nil => cases hne rfl
  | cons w ws' ih =>
    cases ws' with
    | nil =>
      rw [joinSpace_single]
      exact reverse_head_nonspace w (h w (by simp)).1 (h w (by simp)).2
    | cons v ws'' =>
      rw [joinSpace_cons_cons]
      obtain ⟨c, t, hct, hcns⟩ := ih (by simp) (fun x hx => h x (List.mem_cons_of_mem _ hx))
      refine ⟨c, t ++ 32 :: w.reverse, ?_, hcns⟩
      rw [List.reverse_append, List.reverse_cons, hct]
      simp

theorem pyStrip_joinSpace (ws : List (List Nat))
    (h : ∀ w ∈ ws, w ≠ [] ∧ ∀ c ∈ w, isSpaceN c = false) :
    pyStrip (joinSpace ws) = joinSpace ws := by
  cases ws with
  | nil => rfl
  | cons w ws' =>
    have hw := h w (by simp)
    obtain ⟨c, w', rfl⟩ : ∃ c w'', w = c :: w'' := by
      cases w with
      | nil => cases hw.1 rfl
      | cons c w'' => exact ⟨c, w'', rfl⟩
    have hc : isSpaceN c = false := hw.2 c (by simp)
    have hfront : ∃ rest, joinSpace ((c :: w') :: ws') = c :: rest := by
      cases ws' with
      | nil => exact ⟨w', by rw [joinSpace_single]⟩
      | cons v ws'' =>
        refine ⟨w' ++ 32 :: joinSpace (v :: ws''), ?_⟩
        rw [joinSpace_cons_cons]
        simp
    obtain ⟨rest, hJ⟩ := hfront
    obtain ⟨cl, tl, hrev, hclns⟩ :=
      joinSpace_reverse_head ((c :: w') :: ws') (by simp) h
    have hdrop1 : (joinSpace ((c :: w') :: ws')).dropWhile isSpaceN
        = joinSpace ((c :: w') :: ws') := by
      rw [hJ]
      exact List.dropWhile_cons_of_neg (by simp [hc])
    have hdrop2 : ((joinSpace ((c :: w') :: ws')).reverse).dropWhile isSpaceN
        = (joinSpace ((c :: w') :: ws')).reverse := by
      rw [hrev]
      exact List.dropWhile_cons_of_neg (by simp [hclns])
    unfold pyStrip
    rw [hdrop1, hdrop2, List.reverse_reverse]

theorem pyCapitalize_wordOk (w : List Nat) (hne : w ≠ [])
    (hns : ∀ c ∈ w, isSpaceN c = false) :
    pyCapitalize w ≠ [] ∧ ∀ c ∈ pyCapitalize w, isSpaceN c = false := by
  cases w with
  | nil => cases hne rfl
  | cons c cs =>
    refine ⟨by simp [pyCapitalize], ?_⟩
    intro x hx
    simp only [pyCapitalize, List.mem_cons, List.mem_map] at hx
    rcases hx with rfl | ⟨y, hy, rfl⟩
    · rw [isSpaceN_toUpperN]
      exact hns c (by simp)
    · rw [isSpaceN_toLowerN]
      exact hns y (List.mem_cons_of_mem _ hy)

theorem pyCapitalize_idem (w : List Nat) :
    pyCapitalize (pyCapitalize w) = pyCapitalize w := by
  cases w with
  | nil => rfl
  | cons c cs =>
    simp only [pyCapitalize, List.map_map]
    rw [toUpperN_idem]
    congr 1
    simp only [Function.comp_def, toLowerN_idem]

theorem capWords_wordOk (s : List Nat) :
    ∀ w ∈ (pyWords (pyStrip s)).map pyCapitalize,
      w ≠ [] ∧ ∀ c ∈ w, isSpaceN c = false := by
  intro w hw
  obtain ⟨w0, hw0, rfl⟩ := List.mem_map.mp hw
  have h0 := pyWords_wordOk (pyStrip s) w0 hw0
  exact pyCapitalize_wordOk w0 h0.1 h0.2

theorem normalize_str_idem (s : List Nat) :
    normalize_combustivel (PyVal.str (joinSpace ((pyWords (pyStrip s)).map pyCapitalize)))
      = PyVal.str (joinSpace ((pyWords (pyStrip s)).map pyCapitalize)) := by
  have hOk := capWords_wordOk s
  have h1 : normalize_combustivel
      (PyVal.str (joinSpace ((pyWords (pyStrip s)).map pyCapitalize)))
      = PyVal.str (joinSpace ((pyWords (pyStrip
          (joinSpace ((pyWords (pyStrip s)).map pyCapitalize)))).map pyCapitalize)) := rfl
  rw [h1, pyStrip_joinSpace _ hOk, pyWords_joinSpace _ hOk]
  congr 1
  simp only [List.map_map, Function.comp_def, pyCapitalize_idem]

end Abastecimentos

namespace Abastecimentos

/-- Claim C10 (confirmed): the fuel-type normalizer implemented in the code
is idempotent — normalizing twice equals normalizing once — and it maps the
`None` input to `None`, not to the empty string; being a total function of
the model, it never raises. -/
theorem c10_normalize_idempotent_none :
    (∀ v : PyVal, normalize_combustivel (normalize_combustivel v) = normalize_combustivel v)
    ∧ normalize_combustivel PyVal.none = PyVal.none := by
  refine ⟨?_, rfl⟩
  intro v
  cases v with
  | none => rfl
  | str s => exact normalize_str_idem s
  | int n => exact normalize_str_idem (pyStrOf (PyVal.int n))
  | float q => exact normalize_str_idem (pyStrOf (PyVal.float q))

/-- Claim C1, counterexample: the input `"gasolina comum"` contains the
substring `"gasolina"`, yet the normalizer returns `"Gasolina Comum"`, not
the canonical `"Gasolina"`; and the non-string input `7` returns `"7"`,
not the empty string.  The code title-cases words instead of matching the
priority list. -/
theorem c1_counterexample :
    normalize_combustivel (PyVal.str (strCodes "gasolina comum"))
      = PyVal.str (strCodes "Gasolina Comum")
    ∧ PyVal.str (strCodes "Gasolina Comum") ≠ PyVal.str (strCodes "Gasolina")
    ∧ containsSeq (strCodes "gasolina") (strCodes "gasolina comum") = true
    ∧ normalize_combustivel (PyVal.int 7) = PyVal.str (strCodes "7")
    ∧ PyVal.str (strCodes "7") ≠ PyVal.str [] := by
  decide

/-- Claim C1 (amended): the normalizer is a word-wise title-caser, not a
substring matcher: each exact canonical name still maps to its canonical
label (`"etanol"` to `"Etanol"`, `"GASOLINA"` to `"Gasolina"`,
`"diesel s10"` to `"Diesel S10"`, `"diesel s500"` to `"Diesel S500"`,
`" arla "` to `"Arla"`); every string input yields the stripped input with
each whitespace-separated word capitalized; a non-string input yields its
`str()` form, not the empty string; `None` passes through. -/
theorem c1_titlecase_normalizer :
    normalize_combustivel (PyVal.str (strCodes "etanol")) = PyVal.str (strCodes "Etanol")
    ∧ normalize_combustivel (PyVal.str (strCodes "GASOLINA")) = PyVal.str (strCodes "Gasolina")
    ∧ normalize_combustivel (PyVal.str (strCodes "diesel s10")) = PyVal.str (strCodes "Diesel S10")
    ∧ normalize_combustivel (PyVal.str (strCodes "diesel s500")) = PyVal.str (strCodes "Diesel S500")
    ∧ normalize_combustivel (PyVal.str (strCodes " arla ")) = PyVal.str (strCodes "Arla")
    ∧ (∀ s : List Nat, ∃ out : List Nat,
        normalize_combustivel (PyVal.str s) = PyVal.str out
        ∧ pyWords out = (pyWords (pyStrip s)).map pyCapitalize
        ∧ pyStrip out = out)
    ∧ normalize_combustivel (PyVal.int 7) = PyVal.str (strCodes "7")
    ∧ normalize_combustivel PyVal.none = PyVal.none := by
  refine ⟨by decide, by decide, by decide, by decide, by decide, ?_, by decide, rfl⟩
  intro s
  refine ⟨joinSpace ((pyWords (pyStrip s)).map pyCapitalize), rfl, ?_, ?_⟩
  · exact pyWords_joinSpace _ (capWords_wordOk s)
  · exact pyStrip_joinSpace _ (capWords_wordOk s)

/-- Claim C2 (confirmed): for every argument combination and every
transport behaviour, `send_email_smtp` returns a (flag, error) pair and
never raises: a successful transmission returns `(True, "")`, and a
transport exception with message `e` is caught and reported as
`(False, e)`. -/
theorem c2_send_email_never_raises (to_address subject : List Nat)
    (body html_body : Option (List Nat)) (attachment_bytes : Option (List Nat))
    (attachment_name : List Nat) (smtp_config : Option SmtpConfig)
    (transport : SmtpSession → Except (List Nat) Unit) :
    (transport (mkSession to_address subject body html_body attachment_bytes
        attachment_name smtp_config) = Except.ok () →
      send_email_smtp to_address subject body html_body attachment_bytes
        attachment_name smtp_config transport = (true, []))
    ∧ (∀ e, transport (mkSession to_address subject body html_body attachment_bytes
        attachment_name smtp_config) = Except.error e →
      send_email_smtp to_address subject body html_body attachment_bytes
        attachment_name smtp_config transport = (false, e))
    ∧ (send_email_smtp to_address subject body html_body attachment_bytes
        attachment_name smtp_config transport = (true, [])
       ∨ (send_email_smtp to_address subject body html_body attachment_bytes
            attachment_name smtp_config transport).1 = false) := by
  refine ⟨?_, ?_, ?_⟩
  · intro h
    simp [send_email_smtp, h]
  · intro e h
    simp [send_email_smtp, h]
  · cases h : transport (mkSession to_address subject body html_body attachment_bytes
        attachment_name smtp_config) with
    | ok u => cases u; left; simp [send_email_smtp, h]
    | error e => right; simp [send_email_smtp, h]

/-- Witness for C2 at concrete inputs: a transport that succeeds gives
`(true, "")`; a transport that raises `"boom"` gives `(false, "boom")`. -/
theorem c2_send_email_never_raises_witness :
    send_email_smtp [] [] Option.none Option.none Option.none []
      Option.none (fun _ => Except.ok ()) = (true, [])
    ∧ send_email_smtp [] [] Option.none Option.none Option.none []
      Option.none (fun _ => Except.error (strCodes "boom")) = (false, strCodes "boom") := by
  refine ⟨?_, ?_⟩
  · exact (c2_send_email_never_raises [] [] Option.none Option.none Option.none []
      Option.none (fun _ => Except.ok ())).1 rfl
  · exact (c2_send_email_never_raises [] [] Option.none Option.none Option.none []
      Option.none (fun _ => Except.error (strCodes "boom"))).2.1 (strCodes "boom") rfl

end Abastecimentos

namespace Abastecimentos

/-- Claim C3, counterexample: with every payload key unset, the rendered
metadata table still contains a `"Quantidade (L):"` (liters) row and a
`"Quilometragem atual:"` (km) row with empty values — rows are not
conditional on the value being set; and with `valor_total = 12.5` in the
payload, no row whose label contains `"Valor total"` exists at all, so no
`R$`-formatted cost row is rendered. -/
theorem c3_counterexample :
    (strCodes "Quantidade (L):", PyVal.str []) ∈ metaRows []
    ∧ (strCodes "Quilometragem atual:", PyVal.str []) ∈ metaRows []
    ∧ (metaRows [(strCodes "valor_total", PyVal.float (25 / 2 : ℚ))]).all
        (fun row => !containsSeq (strCodes "Valor total") row.1) = true := by
  decide

/-- Claim C3 (amended): the metadata table of the requisition report is a
fixed nine-row list — Data, Posto destino, Placa, Motorista, Supervisor,
Setor, Quilometragem atual, Quantidade (L), Combustível — appended
unconditionally for every payload, with missing values rendered as empty
strings; no `"Valor total"` row and no currency formatting exist. -/
theorem c3_meta_table_fixed (payload : PyDict) :
    (metaRows payload).map Prod.fst =
      [strCodes "Data:", strCodes "Posto destino:", strCodes "Placa:",
       strCodes "Motorista:", strCodes "Supervisor:", strCodes "Setor:",
       strCodes "Quilometragem atual:", strCodes "Quantidade (L):",
       strCodes "Combustível:"]
    ∧ (metaRows payload).length = 9
    ∧ (metaRows payload).all (fun row => !containsSeq (strCodes "Valor total") row.1) = true
    ∧ (strCodes "Quantidade (L):",
        PyVal.str (pyStrOf (pyGet payload (strCodes "litros") (PyVal.str [])))) ∈
        metaRows payload := by
  refine ⟨rfl, rfl, ?_, by simp [metaRows]⟩
  simp only [metaRows, List.all_cons, List.all_nil, Bool.and_eq_true, Bool.not_eq_true']
  refine ⟨by decide, by decide, by decide, by decide, by decide, by decide, by decide,
    by decide, by decide, trivial⟩

/-- Claim C6 (confirmed): with the rendering library unavailable the
requisition report generator fails with the labelled dependency error —
its message names `reportlab` and the remediation `pip install reportlab`
— and with the library available it returns the rendered document. -/
theorem c6_reportlab_missing_error (payload : PyDict) :
    generate_request_pdf false payload = Except.error reportlabMissingMsg
    ∧ containsSeq (strCodes "reportlab") reportlabMissingMsg = true
    ∧ containsSeq (strCodes "pip install reportlab") reportlabMissingMsg = true
    ∧ ∃ d : RequestPdf, generate_request_pdf true payload = Except.ok d := by
  refine ⟨rfl, by decide, by decide, ?_⟩
  exact ⟨_, rfl⟩

/-- Claim C8, counterexample: a statement failure inside a store operation
leaves the connection open — a failing `to_sql` in
`upload_abastecimentos`, a failing `commit` in `upload_cadastros`, and a
failing insert in the requisition save all skip `conn.close()`, so the
claim that every path releases the connection is false. -/
theorem c8_counterexample :
    upload_abastecimentos_conn false false false true = ConnOutcome.leftOpen
    ∧ upload_cadastros_conn false false false true = ConnOutcome.leftOpen
    ∧ pagina_abastecimentos_save_conn true = ConnOutcome.leftOpen := by
  decide

/-- Claim C8 (amended): on every path on which no statement fails after
the connection is opened, the store operations close their connection (or
never open it); but when the bulk write, the commit, or the insert fails
mid-operation, the connection is left open — there is no scoped
acquisition with guaranteed release. -/
theorem c8_connection_release (readFails invalidCols missingPlaca : Bool) :
    upload_cadastros_conn readFails invalidCols missingPlaca false ≠ ConnOutcome.leftOpen
    ∧ upload_abastecimentos_conn readFails invalidCols missingPlaca false ≠ ConnOutcome.leftOpen
    ∧ pagina_abastecimentos_save_conn false = ConnOutcome.closed
    ∧ upload_cadastros_conn false false false true = ConnOutcome.leftOpen
    ∧ upload_abastecimentos_conn false false false true = ConnOutcome.leftOpen
    ∧ pagina_abastecimentos_save_conn true = ConnOutcome.leftOpen := by
  cases readFails <;> cases invalidCols <;> cases missingPlaca <;> decide

/-- Claim C9, counterexample: an attachment named `relatorio.pdf` is given
MIME type `application/octet-stream`, not the PDF MIME type — the source
has no `.pdf` branch, so the claim that `.pdf` names yield the PDF type is
false. -/
theorem c9_counterexample :
    inferMime (strCodes "relatorio.pdf")
      = (strCodes "application", strCodes "octet-stream")
    ∧ containsSeq (strCodes "pdf") (strCodes "octet-stream") = false := by
  decide

/-- Claim C9 (amended): for every attachment passed with non-null bytes,
the MIME type is inferred from the lowercased file name: a name ending in
`.xlsx` yields the spreadsheet type, and any other name — `.pdf`
included — yields the generic binary type `application/octet-stream`. -/
theorem c9_mime_from_extension (to_address subject : List Nat)
    (body html_body : Option (List Nat)) (bs attachment_name : List Nat)
    (smtp_config : Option SmtpConfig) :
    (pyEndsWith (attachment_name.map toLowerN) (strCodes ".xlsx") = true →
      (buildEmailMsg to_address subject body html_body (Option.some bs)
          attachment_name smtp_config).attachment
        = Option.some (bs, strCodes "application",
            strCodes "vnd.openxmlformats-officedocument.spreadsheetml.sheet",
            attachment_name))
    ∧ (pyEndsWith (attachment_name.map toLowerN) (strCodes ".xlsx") = false →
      (buildEmailMsg to_address subject body html_body (Option.some bs)
          attachment_name smtp_config).attachment
        = Option.some (bs, strCodes "application", strCodes "octet-stream",
            attachment_name)) := by
  refine ⟨?_, ?_⟩
  · intro h
    simp [buildEmailMsg, inferMime, h]
  · intro h
    simp [buildEmailMsg, inferMime, h]

/-- Witness for C9 at concrete inputs: `Relatorio.XLSX` (case-insensitive
match) gets the spreadsheet type and `requisicao.pdf` gets
`application/octet-stream`. -/
theorem c9_mime_from_extension_witness :
    (buildEmailMsg [] [] Option.none Option.none (Option.some [1])
        (strCodes "Relatorio.XLSX") Option.none).attachment
      = Option.some ([1], strCodes "application",
          strCodes "vnd.openxmlformats-officedocument.spreadsheetml.sheet",
          strCodes "Relatorio.XLSX")
    ∧ (buildEmailMsg [] [] Option.none Option.none (Option.some [1])
        (strCodes "requisicao.pdf") Option.none).attachment
      = Option.some ([1], strCodes "application", strCodes "octet-stream",
          strCodes "requisicao.pdf") := by
  refine ⟨?_, ?_⟩
  · exact (c9_mime_from_extension [] [] Option.none Option.none [1]
      (strCodes "Relatorio.XLSX") Option.none).1 (by decide)
  · exact (c9_mime_from_extension [] [] Option.none Option.none [1]
      (strCodes "requisicao.pdf") Option.none).2 (by decide)

end Abastecimentos

namespace Abastecimentos

theorem hasTable_createTable_same (s : Schema) (n : List Nat) (c : List (List Nat)) :
    hasTable (createTableIfNotExists s n c) n = true := by
  unfold createTableIfNotExists hasTable
  split
  · next h => exact h
  · simp

theorem hasTable_createTable_mono (s : Schema) (m n : List Nat) (c : List (List Nat))
    (h : hasTable s m = true) : hasTable (createTableIfNotExists s n c) m = true := by
  unfold createTableIfNotExists hasTable
  split
  · exact h
  · rw [List.any_append]
    unfold hasTable at h
    rw [h]
    simp

theorem createTable_of_hasTable (s : Schema) (n : List Nat) (c : List (List Nat))
    (h : hasTable s n = true) : createTableIfNotExists s n c = s := by
  unfold hasTable at h
  unfold createTableIfNotExists
  rw [if_pos h]

theorem tableNamesNodup_createTable (s : Schema) (n : List Nat) (c : List (List Nat))
    (h : tableNamesNodup s) : tableNamesNodup (createTableIfNotExists s n c) := by
  unfold createTableIfNotExists
  split
  · exact h
  · next hany =>
    unfold tableNamesNodup at *
    simp only [List.map_append, List.map_cons, List.map_nil]
    rw [List.nodup_append]
    refine ⟨h, List.nodup_singleton n, ?_⟩
    intro a ha hb
    simp only [List.mem_singleton] at hb
    subst hb
    simp only [List.any_eq_true, not_exists, not_and] at hany
    obtain ⟨tb, htb, hfst⟩ := List.mem_map.mp ha
    exact hany tb htb (by simp [hfst])

end Abastecimentos

namespace Abastecimentos

/-- Claim C7 (confirmed): schema initialization is idempotent — running it
a second time changes nothing and raises no error — both data tables (and
the stations-email table) exist afterwards, and no duplicate table is ever
created. -/
theorem c7_init_idempotent (s : Schema) :
    initAll (initAll s) = initAll s
    ∧ hasTable (initAll s) (strCodes "cadastros") = true
    ∧ hasTable (initAll s) (strCodes "abastecimentos") = true
    ∧ hasTable (initAll s) (strCodes "postos_emails") = true
    ∧ (tableNamesNodup s → tableNamesNodup (initAll s)) := by
  have hcad : hasTable (initAll s) (strCodes "cadastros") = true := by
    unfold initAll init_db init_postos_emails
    exact hasTable_createTable_mono _ _ _ _
      (hasTable_createTable_mono _ _ _ _ (hasTable_createTable_same _ _ _))
  have hab : hasTable (initAll s) (strCodes "abastecimentos") = true := by
    unfold initAll init_db init_postos_emails
    exact hasTable_createTable_mono _ _ _ _ (hasTable_createTable_same _ _ _)
  have hpe : hasTable (initAll s) (strCodes "postos_emails") = true := by
    unfold initAll init_postos_emails
    exact hasTable_createTable_same _ _ _
  refine ⟨?_, hcad, hab, hpe, ?_⟩
  · show createTableIfNotExists (createTableIfNotExists (createTableIfNotExists
        (initAll s) (strCodes "cadastros") cadastrosCols)
        (strCodes "abastecimentos") abastecimentosCols)
        (strCodes "postos_emails") postosEmailsCols = initAll s
    rw [createTable_of_hasTable _ _ _ hcad]
    rw [createTable_of_hasTable _ _ _ hab]
    rw [createTable_of_hasTable _ _ _ hpe]
  · intro h
    unfold initAll init_db init_postos_emails
    exact tableNamesNodup_createTable _ _ _
      (tableNamesNodup_createTable _ _ _ (tableNamesNodup_createTable _ _ _ h))

/-- Witness for C7 at the empty schema: double initialization equals
single, all three tables exist, and table names stay duplicate-free. -/
theorem c7_init_idempotent_witness :
    initAll (initAll ⟨[]⟩) = initAll ⟨[]⟩
    ∧ hasTable (initAll ⟨[]⟩) (strCodes "cadastros") = true
    ∧ hasTable (initAll ⟨[]⟩) (strCodes "abastecimentos") = true
    ∧ hasTable (initAll ⟨[]⟩) (strCodes "postos_emails") = true
    ∧ tableNamesNodup (initAll ⟨[]⟩) := by
  have h := c7_init_idempotent ⟨[]⟩
  exact ⟨h.1, h.2.1, h.2.2.1, h.2.2.2.1, h.2.2.2.2 (by simp [tableNamesNodup])⟩

end Abastecimentos

namespace Abastecimentos

theorem uniquePlates_upsert (t : CadTable)
    (placa categoria marca modelo condutor unidade setor : PyVal)
    (h : uniquePlates t) :
    uniquePlates (upsertCadastro t placa categoria marca modelo condutor unidade setor) := by
  intro r1 h1 r2 h2 hpl
  unfold upsertCadastro at h1 h2
  simp only [List.mem_append, List.mem_filter, List.mem_singleton,
    Bool.not_eq_true', beq_eq_false_iff_ne, ne_eq] at h1 h2
  rcases h1 with ⟨m1, f1⟩ | rfl <;> rcases h2 with ⟨m2, f2⟩ | rfl
  · exact h r1 m1 r2 m2 hpl
  · exact absurd hpl f1
  · exact absurd hpl.symm f2
  · rfl

theorem uniquePlates_deleteLast (t : CadTable) (h : uniquePlates t) :
    uniquePlates (deleteLastCadastro t) := by
  unfold deleteLastCadastro
  split
  · exact h
  · intro r1 h1 r2 h2 hpl
    simp only [List.mem_filter] at h1 h2
    exact h r1 h1.1 r2 h2.1 hpl

theorem uniquePlates_foldl (g : CadTable → List PyVal → CadTable)
    (hg : ∀ acc r, uniquePlates acc → uniquePlates (g acc r)) :
    ∀ (rs : List (List PyVal)) (acc : CadTable),
      uniquePlates acc → uniquePlates (rs.foldl g acc) := by
  intro rs
  induction rs with
  | nil => intro acc h; exact h
  | cons r rs ih =>
    intro acc h
    exact ih (g acc r) (hg acc r h)

theorem upsert_lastWriteWins (t : CadTable)
    (placa categoria marca modelo condutor unidade setor : PyVal) :
    (upsertCadastro t placa categoria marca modelo condutor unidade setor).rows.filter
      (fun r => r.placa == placa)
      = [⟨t.nextId, placa, condutor, unidade, setor, categoria, marca, modelo⟩] := by
  unfold upsertCadastro
  rw [List.filter_append]
  have h1 : (t.rows.filter (fun r => !(r.placa == placa))).filter
      (fun r => r.placa == placa) = [] := by
    induction t.rows with
    | nil => rfl
    | cons r rs ih =>
      by_cases hr : r.placa = placa
      · simp [List.filter, hr, ih]
      · simp only [List.filter_cons]
        have hb : (r.placa == placa) = false := by simp [hr]
        simp [hb, ih]
  rw [h1]
  simp [List.filter]

end Abastecimentos

namespace Abastecimentos

theorem uniquePlates_upload_cadastros (df : DataFrame) (t : CadTable)
    (h : uniquePlates t) : uniquePlates (upload_cadastros df t).2 := by
  unfold upload_cadastros
  split
  · exact h
  · split
    · exact h
    · exact uniquePlates_foldl _
        (fun acc r hacc => uniquePlates_upsert acc _ _ _ _ _ _ _ hacc) df.rows t h

/-- Claim C5, counterexample: the system does delete registration rows —
after upserting a registration for plate `ABC1234`, the "Apagar último
cadastro" button removes it, leaving the registry empty, so "no operation
of the system ever deletes a registration row" is false. -/
theorem c5_counterexample :
    (upsertCadastro ⟨[], 1⟩ (PyVal.str (strCodes "ABC1234")) (PyVal.str [])
        (PyVal.str []) (PyVal.str []) (PyVal.str []) (PyVal.str []) (PyVal.str [])).rows ≠ []
    ∧ (deleteLastCadastro (upsertCadastro ⟨[], 1⟩ (PyVal.str (strCodes "ABC1234"))
        (PyVal.str []) (PyVal.str []) (PyVal.str []) (PyVal.str []) (PyVal.str [])
        (PyVal.str []))).rows = [] := by
  decide

/-- Claim C5 (amended): at most one registration row exists per plate and
is preserved by every registry operation (upsert, manual save, bulk
import, delete-last), and saving an existing plate replaces that row with
the new values (last write wins, under a fresh id); however the system
does offer a delete operation — "Apagar último cadastro" — that removes
the most recently inserted registration row. -/
theorem c5_registry_invariants (t : CadTable) (df : DataFrame)
    (placa categoria marca modelo condutor unidade setor : PyVal)
    (pl cat mar mo co un se : List Nat) :
    (uniquePlates t →
      uniquePlates (upsertCadastro t placa categoria marca modelo condutor unidade setor))
    ∧ (uniquePlates t → uniquePlates (deleteLastCadastro t))
    ∧ (uniquePlates t → uniquePlates (salvarCadastroManual t pl cat mar mo co un se).2)
    ∧ (uniquePlates t → uniquePlates (upload_cadastros df t).2)
    ∧ (upsertCadastro t placa categoria marca modelo condutor unidade setor).rows.filter
        (fun r => r.placa == placa)
        = [⟨t.nextId, placa, condutor, unidade, setor, categoria, marca, modelo⟩] := by
  refine ⟨fun h => uniquePlates_upsert t _ _ _ _ _ _ _ h,
    fun h => uniquePlates_deleteLast t h, fun h => ?_,
    fun h => uniquePlates_upload_cadastros df t h,
    upsert_lastWriteWins t _ _ _ _ _ _ _⟩
  unfold salvarCadastroManual
  split
  · exact h
  · exact uniquePlates_upsert t _ _ _ _ _ _ _ h

/-- Witness for C5 on the empty registry (and an empty import file): all
four operations preserve plate uniqueness and the upsert leaves exactly
the new row under the given plate. -/
theorem c5_registry_invariants_witness :
    uniquePlates (upsertCadastro ⟨[], 0⟩ (PyVal.str (strCodes "ABC1234"))
      (PyVal.str []) (PyVal.str []) (PyVal.str []) (PyVal.str []) (PyVal.str [])
      (PyVal.str []))
    ∧ uniquePlates (deleteLastCadastro ⟨[], 0⟩)
    ∧ uniquePlates (salvarCadastroManual ⟨[], 0⟩ (strCodes "ABC1234") [] [] [] [] [] []).2
    ∧ uniquePlates (upload_cadastros ⟨[], []⟩ ⟨[], 0⟩).2
    ∧ (upsertCadastro ⟨[], 0⟩ (PyVal.str (strCodes "ABC1234")) (PyVal.str [])
        (PyVal.str []) (PyVal.str []) (PyVal.str []) (PyVal.str [])
        (PyVal.str [])).rows.filter (fun r => r.placa == PyVal.str (strCodes "ABC1234"))
      = [⟨0, PyVal.str (strCodes "ABC1234"), PyVal.str [], PyVal.str [], PyVal.str [],
          PyVal.str [], PyVal.str [], PyVal.str []⟩] := by
  have hu : uniquePlates (⟨[], 0⟩ : CadTable) := by
    intro r1 h1
    cases h1
  have h := c5_registry_invariants ⟨[], 0⟩ ⟨[], []⟩ (PyVal.str (strCodes "ABC1234"))
    (PyVal.str []) (PyVal.str []) (PyVal.str []) (PyVal.str []) (PyVal.str [])
    (PyVal.str []) (strCodes "ABC1234") [] [] [] [] [] []
  exact ⟨h.1 hu, h.2.1 hu, h.2.2.1 hu, h.2.2.2.1 hu, h.2.2.2.2⟩

end Abastecimentos

namespace Abastecimentos

theorem missingPlaca_all_false (df : DataFrame) :
    df.rows.all (fun r => !(dfCell df r (strCodes "Placa") == PyVal.none)) = false
    ↔ ∃ r ∈ df.rows, dfCell df r (strCodes "Placa") = PyVal.none := by
  rw [List.all_eq_false]
  constructor
  · rintro ⟨r, hr, hfalse⟩
    refine ⟨r, hr, ?_⟩
    simpa using hfalse
  · rintro ⟨r, hr, hnone⟩
    refine ⟨r, hr, ?_⟩
    simpa using hnone

/-- Claim C4 (confirmed): bulk import is all-or-nothing on the plate
requirement: for both import operations, a file with any plate-less row is
rejected and the store is left untouched — with the dedicated plate error
when the expected headers are present — and rows are written (`ok`) only
when every expected header is present and every row has a plate. -/
theorem c4_import_all_or_nothing (df : DataFrame) (t : CadTable) (u : AbTable) :
    ((∃ r ∈ df.rows, dfCell df r (strCodes "Placa") = PyVal.none) →
      (upload_cadastros df t).2 = t ∧ (upload_abastecimentos df u).2 = u)
    ∧ (expectedCadCols.all (fun c => df.cols.contains c) = true →
       (∃ r ∈ df.rows, dfCell df r (strCodes "Placa") = PyVal.none) →
       upload_cadastros df t = (UploadResult.errorMissingPlaca, t))
    ∧ (expectedAbCols.all (fun c => df.cols.contains c) = true →
       (∃ r ∈ df.rows, dfCell df r (strCodes "Placa") = PyVal.none) →
       upload_abastecimentos df u = (UploadResult.errorMissingPlaca, u))
    ∧ ((upload_cadastros df t).1 = UploadResult.ok →
       expectedCadCols.all (fun c => df.cols.contains c) = true
       ∧ ∀ r ∈ df.rows, dfCell df r (strCodes "Placa") ≠ PyVal.none)
    ∧ ((upload_abastecimentos df u).1 = UploadResult.ok →
       expectedAbCols.all (fun c => df.cols.contains c) = true
       ∧ ∀ r ∈ df.rows, dfCell df r (strCodes "Placa") ≠ PyVal.none) := by
  refine ⟨?_, ?_, ?_, ?_, ?_⟩
  · intro hex
    have hp := (missingPlaca_all_false df).mpr hex
    constructor
    · unfold upload_cadastros
      split
      · rfl
      · split
        · rfl
        · next h2 =>
          simp only [Bool.not_eq_true', Bool.not_eq_false] at h2
          rw [hp] at h2
          cases h2
    · unfold upload_abastecimentos
      split
      · rfl
      · split
        · rfl
        · next h2 =>
          simp only [Bool.not_eq_true', Bool.not_eq_false] at h2
          rw [hp] at h2
          cases h2
  · intro hcols hex
    have hp := (missingPlaca_all_false df).mpr hex
    unfold upload_cadastros
    rw [hcols, hp]
    simp
  · intro hcols hex
    have hp := (missingPlaca_all_false df).mpr hex
    unfold upload_abastecimentos
    rw [hcols, hp]
    simp
  · intro hok
    unfold upload_cadastros at hok
    split at hok
    · cases hok
    · split at hok
      · cases hok
      · next h1 h2 =>
        simp only [Bool.not_eq_true', Bool.not_eq_false] at h1 h2
        refine ⟨h1, ?_⟩
        rw [List.all_eq_true] at h2
        intro r hr
        have hcell := h2 r hr
        simpa using hcell
  · intro hok
    unfold upload_abastecimentos at hok
    split at hok
    · cases hok
    · split at hok
      · cases hok
      · next h1 h2 =>
        simp only [Bool.not_eq_true', Bool.not_eq_false] at h1 h2
        refine ⟨h1, ?_⟩
        rw [List.all_eq_true] at h2
        intro r hr
        have hcell := h2 r hr
        simpa using hcell

end Abastecimentos

namespace Abastecimentos

/-- Witness for C4: a file holding one plate-less row (under the union of
both header sets) is rejected by both importers with the plate error and
no store change; a file whose single row has plate `ABC1234` imports with
result `ok`, so both checks were satisfied. -/
theorem c4_import_all_or_nothing_witness :
    upload_cadastros
      ⟨expectedCadCols ++ [strCodes "Valor Total", strCodes "Total de litros",
        strCodes "Data", strCodes "Referente", strCodes "Odometro",
        strCodes "Posto", strCodes "Combustivel"], [List.replicate 14 PyVal.none]⟩
      ⟨[], 0⟩ = (UploadResult.errorMissingPlaca, ⟨[], 0⟩)
    ∧ upload_abastecimentos
      ⟨expectedCadCols ++ [strCodes "Valor Total", strCodes "Total de litros",
        strCodes "Data", strCodes "Referente", strCodes "Odometro",
        strCodes "Posto", strCodes "Combustivel"], [List.replicate 14 PyVal.none]⟩
      ⟨[], 0⟩ = (UploadResult.errorMissingPlaca, ⟨[], 0⟩)
    ∧ (upload_cadastros
      ⟨expectedCadCols ++ [strCodes "Valor Total", strCodes "Total de litros",
        strCodes "Data", strCodes "Referente", strCodes "Odometro",
        strCodes "Posto", strCodes "Combustivel"], [List.replicate 14 PyVal.none]⟩
      ⟨[], 0⟩).2 = ⟨[], 0⟩
    ∧ (∀ r ∈ ([PyVal.str (strCodes "ABC1234") :: List.replicate 13 (PyVal.str [])] :
        List (List PyVal)),
        dfCell ⟨expectedCadCols ++ [strCodes "Valor Total", strCodes "Total de litros",
          strCodes "Data", strCodes "Referente", strCodes "Odometro",
          strCodes "Posto", strCodes "Combustivel"],
          [PyVal.str (strCodes "ABC1234") :: List.replicate 13 (PyVal.str [])]⟩
          r (strCodes "Placa") ≠ PyVal.none)
    ∧ expectedAbCols.all (fun c =>
        (expectedCadCols ++ [strCodes "Valor Total", strCodes "Total de litros",
          strCodes "Data", strCodes "Referente", strCodes "Odometro",
          strCodes "Posto", strCodes "Combustivel"]).contains c) = true := by
  have hbad := c4_import_all_or_nothing
    ⟨expectedCadCols ++ [strCodes "Valor Total", strCodes "Total de litros",
      strCodes "Data", strCodes "Referente", strCodes "Odometro",
      strCodes "Posto", strCodes "Combustivel"], [List.replicate 14 PyVal.none]⟩
    ⟨[], 0⟩ ⟨[], 0⟩
  have hgood := c4_import_all_or_nothing
    ⟨expectedCadCols ++ [strCodes "Valor Total", strCodes "Total de litros",
      strCodes "Data", strCodes "Referente", strCodes "Odometro",
      strCodes "Posto", strCodes "Combustivel"],
      [PyVal.str (strCodes "ABC1234") :: List.replicate 13 (PyVal.str [])]⟩
    ⟨[], 0⟩ ⟨[], 0⟩
  refine ⟨?_, ?_, ?_, ?_, ?_⟩
  · exact hbad.2.1 (by decide) ⟨List.replicate 14 PyVal.none, by decide, by decide⟩
  · exact hbad.2.2.1 (by decide) ⟨List.replicate 14 PyVal.none, by decide, by decide⟩
  · exact (hbad.1 ⟨List.replicate 14 PyVal.none, by decide, by decide⟩).1
  · exact (hgood.2.2.2.1 (by decide)).2
  · exact (hgood.2.2.2.2 (by decide)).1

end Abastecimentos
